import Mathlib

/-!
Shallow embedding of the gmap-llm repository: the windowed places search with
pagination (main_tool.py), the multi-page aggregation loop (get_all_places),
the LLM query preprocessor, and the two tool-call orchestrators (cli_app.py
run_conversation and frontend_app.py get_llm_decision).  External
collaborators (the Google Places provider, the LLM, the JSON parser of the
standard library and the HTTP backend) are modelled as oracle parameters;
everything else is translated from the source.
-/

namespace GmapLLM

/-- Raw place record as returned by the places provider (the fields the code
reads: name, formatted_address, rating, place_id). -/
structure RawPlace where
  name : String
  formatted_address : String
  rating : Option Rat
  place_id : String
deriving DecidableEq, Repr

/-- PlaceInfo response model (main_tool.py lines 59-65). -/
structure PlaceInfo where
  name : String
  address : String
  rating : Option Rat
  place_id : String
  maps_embed_url : String
  maps_direction_url : String
deriving DecidableEq, Repr

/-- PaginationInfo response model (main_tool.py lines 68-74). -/
structure PaginationInfo where
  current_page : Nat
  total_results : Nat
  results_per_page : Nat
  total_pages : Nat
  has_next_page : Bool
  has_prev_page : Bool
deriving DecidableEq, Repr

/-- ApiResponse model (main_tool.py lines 77-82); original_query and
processed_query default to none as in the Pydantic model. -/
structure ApiResponse where
  status : String
  results : List PlaceInfo
  pagination : PaginationInfo
  original_query : Option String := none
  processed_query : Option String := none
deriving DecidableEq, Repr

/-- Outcome of search_places as observed by the HTTP caller: either a
successful ApiResponse or a propagated HTTPException carrying a status code
and a detail string. -/
inductive SearchResult where
  | ok (resp : ApiResponse)
  | httpError (status_code : Nat) (detail : String)
deriving DecidableEq, Repr

/-- Exceptions that the embedded try-block of search_places can raise. -/
inductive PyExn where
  | httpException (status_code : Nat) (detail : String)
deriving DecidableEq, Repr

/-- Formatting of one raw provider record into a PlaceInfo, including the two
URL templates (main_tool.py lines 196-208). -/
def format_place (api_key : String) (place : RawPlace) : PlaceInfo :=
  { name := place.name
    address := place.formatted_address
    rating := place.rating
    place_id := place.place_id
    maps_embed_url :=
      "https://www.google.com/maps/embed/v1/place?key=" ++ api_key ++
        "&q=place_id:" ++ place.place_id
    maps_direction_url :=
      "https://www.google.com/maps/dir/?api=1&destination_place_id=" ++
        place.place_id ++ "&destination=" ++ place.formatted_address }

/-- Body of the try-block of search_places (main_tool.py lines 160-222),
taking the already-aggregated list of places.  The out-of-range page check
raises HTTPException 404 inside the try-block. -/
def search_places_try (api_key : String) (all_places : List RawPlace)
    (top_n page : Nat) : Except PyExn ApiResponse :=
  if all_places = [] then
    .ok { status := "ZERO_RESULTS", results := [],
          pagination := { current_page := page, total_results := 0,
                          results_per_page := top_n, total_pages := 0,
                          has_next_page := false, has_prev_page := false } }
  else
    let total_results := all_places.length
    let total_pages := (total_results + top_n - 1) / top_n
    let start_idx := (page - 1) * top_n
    let end_idx := min (start_idx + top_n) total_results
    if start_idx ≥ total_results then
      .error (.httpException 404
        ("Page " ++ toString page ++ " not found. Total pages available: " ++
          toString total_pages))
    else
      let page_places := (all_places.drop start_idx).take (end_idx - start_idx)
      .ok { status := "OK",
            results := page_places.map (format_place api_key),
            pagination := { current_page := page, total_results := total_results,
                            results_per_page := top_n, total_pages := total_pages,
                            has_next_page := decide (page < total_pages),
                            has_prev_page := decide (page > 1) } }

/-- search_places (main_tool.py lines 148-233) with the aggregate given as a
parameter: parameter validation happens before the try-block; any exception
raised inside the try-block — including the 404 HTTPException of the
out-of-range page check, which is not a googlemaps ApiError — is caught by
the final blanket except handler and re-raised as HTTPException 500. -/
def search_places_with (api_key : String) (all_places : List RawPlace)
    (top_n page : Nat) : SearchResult :=
  if top_n < 1 ∨ top_n > 60 then
    .httpError 400 "top_n must be between 1 and 60"
  else if page < 1 then
    .httpError 400 "page must be 1 or greater"
  else
    match search_places_try api_key all_places top_n page with
    | .ok resp => .ok resp
    | .error _ => .httpError 500 "An unexpected server error occurred."

/-- One provider response in a pagination sequence: either the request raised
an exception, or it returned a status string, a list of results and an
optional next_page_token. -/
inductive PageOutcome where
  | exn
  | success (status : String) (results : List RawPlace)
      (next_page_token : Option String)

/-- Python truthiness of the next_page_token value: None and the empty string
are falsy. -/
def token_truthy : Option String → Bool
  | none => false
  | some s => !s.isEmpty

/-- Aggregation loop of get_all_places (main_tool.py lines 112-141).  The
provider oracle gives the response to the k-th request issued.  The pair
returned is the accumulated list together with the number of provider
requests issued (the Python function only returns the list; the count is
carried for specification purposes).  The fuel argument is 3 at the top-level
call and never runs out before the requests_made guard fails. -/
def places_loop (provider : Nat → PageOutcome) (max_results : Nat) :
    Nat → Nat → List RawPlace → List RawPlace × Nat
  | 0, k, acc => (acc, k)
  | fuel + 1, k, acc =>
    if k < 3 ∧ acc.length < max_results then
      match provider k with
      | .exn => (acc, k + 1)
      | .success status results token =>
        if status = "OK" ∨ status = "ZERO_RESULTS" then
          let acc2 := acc ++ results
          if token_truthy token ∧ acc2.length < max_results then
            places_loop provider max_results fuel (k + 1) acc2
          else (acc2, k + 1)
        else (acc, k + 1)
    else (acc, k)

/-- get_all_places (main_tool.py lines 107-145): runs the aggregation loop
from an empty accumulator and truncates the result to max_results.  The
second component counts the provider requests issued. -/
def get_all_places (provider : Nat → PageOutcome) (max_results : Nat) :
    List RawPlace × Nat :=
  let r := places_loop provider max_results 3 0 []
  (r.fst.take max_results, r.snd)

/-- search_places composed with the aggregation (main_tool.py line 162 calls
get_all_places with max_results=60). -/
def search_places (api_key : String) (provider : Nat → PageOutcome)
    (top_n page : Nat) : SearchResult :=
  search_places_with api_key (get_all_places provider 60).fst top_n page

/-- Results contributed by one provider page (empty for a raised request). -/
def page_results : PageOutcome → List RawPlace
  | .exn => []
  | .success _ results _ => results

/-- Concatenation of the results of the first n provider pages. -/
def acc_join (provider : Nat → PageOutcome) (n : Nat) : List RawPlace :=
  (List.range n).flatMap fun i => page_results (provider i)

/-- A provider page whose response lets the loop continue: an OK or
ZERO_RESULTS status and a truthy continuation token. -/
def page_continues (p : PageOutcome) : Prop :=
  ∃ s r t, p = .success s r t ∧ (s = "OK" ∨ s = "ZERO_RESULTS") ∧
    token_truthy t = true

/-- A failing provider page: the request raised, or it returned a status
other than OK and ZERO_RESULTS. -/
def page_fails : PageOutcome → Prop
  | .exn => True
  | .success s _ _ => ¬ (s = "OK" ∨ s = "ZERO_RESULTS")

/-- Pagination block of a successful search result. -/
def pagination_of : SearchResult → Option PaginationInfo
  | .ok r => some r.pagination
  | .httpError _ _ => none

/-- Result list of a successful search result. -/
def results_of : SearchResult → Option (List PlaceInfo)
  | .ok r => some r.results
  | .httpError _ _ => none

/-- Status string of a successful search result. -/
def status_of : SearchResult → Option String
  | .ok r => some r.status
  | .httpError _ _ => none

/-- The slice of the aggregate that one page is specified to return:
indices from (page-1)*top_n up to (but excluding) min(page*top_n, length). -/
def page_window (places : List RawPlace) (top_n page : Nat) : List RawPlace :=
  (places.drop ((page - 1) * top_n)).take
    (min (page * top_n) places.length - (page - 1) * top_n)

/-- A concrete sample place record used for concrete evaluations. -/
def demo_place : RawPlace :=
  { name := "Sushi Nakazawa", formatted_address := "23 Commerce St, New York",
    rating := none, place_id := "p1" }

/-- A concrete aggregate of 12 records. -/
def places12 : List RawPlace := List.replicate 12 demo_place

/-- Computation of search_places_with on valid parameters, a non-empty
aggregate and an in-range page: the fully evaluated OK response. -/
theorem search_places_with_ok (api_key : String) (places : List RawPlace)
    (top_n page : Nat) (h1 : 1 ≤ top_n) (h2 : top_n ≤ 60) (h3 : 1 ≤ page)
    (hne : places ≠ []) (hin : (page - 1) * top_n < places.length) :
    search_places_with api_key places top_n page =
      .ok { status := "OK",
            results := ((places.drop ((page - 1) * top_n)).take
                (min ((page - 1) * top_n + top_n) places.length -
                  (page - 1) * top_n)).map (format_place api_key),
            pagination := { current_page := page,
                            total_results := places.length,
                            results_per_page := top_n,
                            total_pages := (places.length + top_n - 1) / top_n,
                            has_next_page :=
                              decide (page < (places.length + top_n - 1) / top_n),
                            has_prev_page := decide (page > 1) } } := by
  have hv : ¬ (top_n < 1 ∨ top_n > 60) := by omega
  have hp : ¬ (page < 1) := by omega
  have hge : ¬ ((page - 1) * top_n ≥ places.length) := Nat.not_le.mpr hin
  simp only [search_places_with, search_places_try, if_neg hv, if_neg hp,
    if_neg hne, if_neg hge]

/-- Claim C2: for every top_n in [1,60], page at least 1, and non-empty fixed
aggregate, when a page is returned its PaginationInfo is fully derived from
the aggregate size and the request parameters: total_pages is the ceiling
division of the size by top_n, has_next_page iff page is below total_pages,
has_prev_page iff page exceeds 1, current_page is the page, total_results the
size and results_per_page is top_n. -/
theorem C2_pagination_fully_derived (api_key : String) (places : List RawPlace)
    (top_n page : Nat) (h1 : 1 ≤ top_n) (h2 : top_n ≤ 60) (h3 : 1 ≤ page)
    (hne : places ≠ []) (hin : (page - 1) * top_n < places.length) :
    pagination_of (search_places_with api_key places top_n page) =
      some { current_page := page,
             total_results := places.length,
             results_per_page := top_n,
             total_pages := places.length ⌈/⌉ top_n,
             has_next_page := decide (page < places.length ⌈/⌉ top_n),
             has_prev_page := decide (1 < page) } := by
  rw [search_places_with_ok api_key places top_n page h1 h2 h3 hne hin]
  rfl

/-- Witness for C2 at a concrete input: 12 records, top_n 5, page 2. -/
theorem C2_pagination_fully_derived_witness :
    pagination_of (search_places_with "key" places12 5 2) =
      some { current_page := 2, total_results := 12, results_per_page := 5,
             total_pages := 12 ⌈/⌉ 5,
             has_next_page := decide (2 < 12 ⌈/⌉ 5),
             has_prev_page := decide (1 < 2) } := by
  have h := C2_pagination_fully_derived "key" places12 5 2 (by decide) (by decide)
    (by decide) (by decide) (by decide)
  simpa [places12] using h

/-- Claim C6 counterexample: on an empty aggregate with top_n 5 and page 1
the code returns ZERO_RESULTS with an empty result list, but the
PaginationInfo is not all-zero: current_page is 1 and results_per_page is 5,
so the all-zero PaginationInfo is not what is returned. -/
theorem C6_counterexample :
    search_places_with "key" [] 5 1 =
      .ok { status := "ZERO_RESULTS", results := [],
            pagination := { current_page := 1, total_results := 0,
                            results_per_page := 5, total_pages := 0,
                            has_next_page := false, has_prev_page := false } } ∧
    pagination_of (search_places_with "key" [] 5 1) ≠
      some { current_page := 0, total_results := 0, results_per_page := 0,
             total_pages := 0, has_next_page := false,
             has_prev_page := false } := by
  exact ⟨rfl, by decide⟩

/-- Claim C6 as amended: for valid top_n and page, an empty aggregate yields
status ZERO_RESULTS with an empty result list and a PaginationInfo whose
total_results, total_pages are zero and whose page flags are false, while
current_page echoes the requested page and results_per_page echoes top_n;
no error is raised. -/
theorem C6_empty_aggregate_zero_results (api_key : String) (top_n page : Nat)
    (h1 : 1 ≤ top_n) (h2 : top_n ≤ 60) (h3 : 1 ≤ page) :
    search_places_with api_key [] top_n page =
      .ok { status := "ZERO_RESULTS", results := [],
            pagination := { current_page := page, total_results := 0,
                            results_per_page := top_n, total_pages := 0,
                            has_next_page := false,
                            has_prev_page := false } } := by
  have hv : ¬ (top_n < 1 ∨ top_n > 60) := by omega
  have hp : ¬ (page < 1) := by omega
  unfold search_places_with
  rw [if_neg hv, if_neg hp]
  unfold search_places_try
  rw [if_pos rfl]

/-- Witness for the amended C6 at a concrete input. -/
theorem C6_empty_aggregate_zero_results_witness :
    search_places_with "key" [] 5 1 =
      .ok { status := "ZERO_RESULTS", results := [],
            pagination := { current_page := 1, total_results := 0,
                            results_per_page := 5, total_pages := 0,
                            has_next_page := false,
                            has_prev_page := false } } :=
  C6_empty_aggregate_zero_results "key" 5 1 (by decide) (by decide) (by decide)

/-- Claim C10: on an empty aggregate the zero-results branch is taken before
the out-of-range page check, so for every valid page, however large, the
search returns status ZERO_RESULTS and never the NotFound rejection. -/
theorem C10_zero_results_precedes_page_check (api_key : String)
    (top_n page : Nat) (h1 : 1 ≤ top_n) (h2 : top_n ≤ 60) (h3 : 1 ≤ page) :
    status_of (search_places_with api_key [] top_n page) =
      some "ZERO_RESULTS" := by
  have hv : ¬ (top_n < 1 ∨ top_n > 60) := by omega
  have hp : ¬ (page < 1) := by omega
  unfold search_places_with
  rw [if_neg hv, if_neg hp]
  unfold search_places_try
  rw [if_pos rfl]
  rfl

/-- Witness for C10 at a concrete input with a page far beyond total_pages. -/
theorem C10_zero_results_precedes_page_check_witness :
    status_of (search_places_with "key" [] 60 1000000) =
      some "ZERO_RESULTS" :=
  C10_zero_results_precedes_page_check "key" 60 1000000 (by decide) (by decide)
    (by decide)

/-- Claim C7 (code bug): with 12 records, top_n 5 and page 4 the start index
15 exceeds the 12 available results; the try-body raises the intended 404
HTTPException, but search_places as a whole answers 500 because the raised
HTTPException is swallowed by the blanket except handler at the end of the
function and re-raised as an unexpected-server-error. -/
theorem C7_out_of_range_page_yields_500 :
    search_places_try "key" places12 5 4 =
      .error (.httpException 404
        "Page 4 not found. Total pages available: 3") ∧
    search_places_with "key" places12 5 4 =
      .httpError 500 "An unexpected server error occurred." := by
  exact ⟨rfl, rfl⟩

/-- Taking up to the window end min(s+n, length) - s from the list dropped at
s is the same as taking n. -/
theorem take_window {α : Type _} (l : List α) (s n : Nat) :
    (l.drop s).take (min (s + n) l.length - s) = (l.drop s).take n := by
  rcases Nat.le_total (s + n) l.length with h | h
  · rw [Nat.min_eq_left h, Nat.add_sub_cancel_left]
  · rw [Nat.min_eq_right h]
    have e1 : (l.drop s).take (l.length - s) = l.drop s :=
      List.take_of_length_le (Nat.le_of_eq (List.length_drop s l))
    have e2 : (l.drop s).take n = l.drop s :=
      List.take_of_length_le (by rw [List.length_drop]; omega)
    rw [e1, e2]

/-- The specified window of page i+1 is the i-th chunk of size top_n. -/
theorem page_window_succ (places : List RawPlace) (n i : Nat) :
    page_window places n (i + 1) = (places.drop (i * n)).take n := by
  unfold page_window
  rw [Nat.add_sub_cancel, Nat.succ_mul]
  exact take_window places (i * n) n

/-- Concatenating the ceil(length/n) chunks of size n of a list reproduces
the list. -/
theorem chunk_join {α : Type _} (n : Nat) (hn : 1 ≤ n) (l : List α) :
    (List.range ((l.length + n - 1) / n)).flatMap
      (fun i => (l.drop (i * n)).take n) = l := by
  suffices H : ∀ N, ∀ l : List α, l.length ≤ N →
      (List.range ((l.length + n - 1) / n)).flatMap
        (fun i => (l.drop (i * n)).take n) = l from H l.length l le_rfl
  intro N
  induction N with
  | zero =>
    intro l hl
    have h0 : l = [] := List.eq_nil_of_length_eq_zero (Nat.le_zero.mp hl)
    subst h0
    have he : ((0 : Nat) + n - 1) / n = 0 := Nat.div_eq_of_lt (by omega)
    simp [he]
  | succ N ih =>
    intro l hl
    by_cases h0 : l = []
    · subst h0
      have he : ((0 : Nat) + n - 1) / n = 0 := Nat.div_eq_of_lt (by omega)
      simp [he]
    · have hpos : 1 ≤ l.length := List.length_pos.mpr h0
      have hK : (l.length + n - 1) / n = ((l.drop n).length + n - 1) / n + 1 := by
        rw [List.length_drop]
        rcases Nat.le_total n l.length with h | h
        · have he : l.length + n - 1 = (l.length - n + n - 1) + n := by omega
          rw [he, Nat.add_div_right _ (by omega)]
        · have h1 : l.length - n = 0 := by omega
          have h2 : (l.length + n - 1) / n = 1 := by
            have ha : 1 * n ≤ l.length + n - 1 := by omega
            have hb : l.length + n - 1 < 2 * n := by omega
            have hle : 1 ≤ (l.length + n - 1) / n :=
              (Nat.le_div_iff_mul_le (by omega)).mpr ha
            have hlt : (l.length + n - 1) / n < 2 :=
              (Nat.div_lt_iff_lt_mul (by omega)).mpr hb
            omega
          have h3 : ((0 : Nat) + n - 1) / n = 0 := Nat.div_eq_of_lt (by omega)
          rw [h1, h2, h3]
      rw [hK, List.range_succ_eq_map, List.flatMap_cons, List.flatMap_map]
      have hfun : ∀ i : Nat, (l.drop (Nat.succ i * n)).take n =
          ((l.drop n).drop (i * n)).take n := by
        intro i
        rw [List.drop_drop, Nat.succ_mul, Nat.add_comm]
      simp only [hfun]
      rw [ih (l.drop n) (by rw [List.length_drop]; omega)]
      simp [List.take_append_drop]

/-- Claim C3: for a fixed non-empty aggregate and valid top_n, every in-range
page returns exactly the slice from (page-1)*top_n up to
min(page*top_n, total_results) of the aggregate (formatted in order), and
concatenating the windows of pages 1..total_pages reproduces the full
aggregate in order with no gaps or overlaps. -/
theorem C3_page_slice_exhaustive (api_key : String) (places : List RawPlace)
    (top_n : Nat) (h1 : 1 ≤ top_n) (h2 : top_n ≤ 60) (hne : places ≠ []) :
    (∀ page, 1 ≤ page → (page - 1) * top_n < places.length →
        results_of (search_places_with api_key places top_n page) =
          some ((page_window places top_n page).map (format_place api_key))) ∧
    (List.range (places.length ⌈/⌉ top_n)).flatMap
        (fun i => page_window places top_n (i + 1)) = places := by
  constructor
  · intro page h3 hin
    rw [search_places_with_ok api_key places top_n page h1 h2 h3 hne hin]
    obtain ⟨q, rfl⟩ : ∃ q, page = q + 1 := ⟨page - 1, by omega⟩
    show some _ = some _
    rw [page_window_succ]
    simp only [Nat.add_sub_cancel]
    rw [take_window]
  · rw [show places.length ⌈/⌉ top_n = (places.length + top_n - 1) / top_n from rfl]
    simp only [page_window_succ]
    exact chunk_join top_n h1 places

/-- Witness for C3 at a concrete input: 12 records, top_n 5, page 2. -/
theorem C3_page_slice_exhaustive_witness :
    results_of (search_places_with "key" places12 5 2) =
      some ((page_window places12 5 2).map (format_place "key")) ∧
    (List.range (places12.length ⌈/⌉ 5)).flatMap
        (fun i => page_window places12 5 (i + 1)) = places12 := by
  have h := C3_page_slice_exhaustive "key" places12 5 (by decide) (by decide)
    (by decide)
  exact ⟨h.1 2 (by decide) (by decide), h.2⟩

/-- Appending one more page to the join of provider pages. -/
theorem acc_join_succ (provider : Nat → PageOutcome) (n : Nat) :
    acc_join provider (n + 1) =
      acc_join provider n ++ page_results (provider n) := by
  unfold acc_join
  rw [List.range_succ, List.flatMap_append]
  simp

/-- The loop never leaves the request counter above 3 when it starts at or
below 3. -/
theorem places_loop_count_le (provider : Nat → PageOutcome) (max_results : Nat) :
    ∀ fuel k acc, k ≤ 3 →
      (places_loop provider max_results fuel k acc).snd ≤ 3 := by
  intro fuel
  induction fuel with
  | zero => intro k acc hk; simpa [places_loop] using hk
  | succ fuel ih =>
    intro k acc hk
    rcases hp : provider k with _ | ⟨s, r, t⟩ <;> simp only [places_loop, hp]
    · by_cases hg : k < 3 ∧ acc.length < max_results
      · rw [if_pos hg]; simp; omega
      · rw [if_neg hg]; simpa using hk
    · by_cases hg : k < 3 ∧ acc.length < max_results
      · rw [if_pos hg]
        by_cases hst : s = "OK" ∨ s = "ZERO_RESULTS"
        · rw [if_pos hst]
          by_cases hcont : token_truthy t = true ∧
              (acc ++ r).length < max_results
          · rw [if_pos hcont]; exact ih (k + 1) _ (by omega)
          · rw [if_neg hcont]; simp; omega
        · rw [if_neg hst]; simp; omega
      · rw [if_neg hg]; simpa using hk

/-- Every request after the first was issued only because the previous page
continued (OK-ish status, truthy token) and the accumulated count was still
below max_results. -/
theorem places_loop_justified (provider : Nat → PageOutcome) (max_results : Nat) :
    ∀ fuel k j, k ≤ j →
      j + 1 < (places_loop provider max_results fuel k (acc_join provider k)).snd →
      page_continues (provider j) ∧
        (acc_join provider (j + 1)).length < max_results := by
  intro fuel
  induction fuel with
  | zero => intro k j hkj h; simp [places_loop] at h; omega
  | succ fuel ih =>
    intro k j hkj h
    rcases hp : provider k with _ | ⟨s, r, t⟩ <;> simp only [places_loop, hp] at h
    · by_cases hg : k < 3 ∧ (acc_join provider k).length < max_results
      · rw [if_pos hg] at h; simp at h; omega
      · rw [if_neg hg] at h; simp at h; omega
    · by_cases hg : k < 3 ∧ (acc_join provider k).length < max_results
      · rw [if_pos hg] at h
        by_cases hst : s = "OK" ∨ s = "ZERO_RESULTS"
        · rw [if_pos hst] at h
          have hacc : acc_join provider k ++ r = acc_join provider (k + 1) := by
            rw [acc_join_succ, hp]
            rfl
          rw [hacc] at h
          by_cases hcont : token_truthy t = true ∧
              (acc_join provider (k + 1)).length < max_results
          · rw [if_pos hcont] at h
            rcases Nat.eq_or_lt_of_le hkj with rfl | hlt
            · exact ⟨⟨s, r, t, hp, hst, hcont.1⟩, hcont.2⟩
            · exact ih (k + 1) j (by omega) h
          · rw [if_neg hcont] at h; simp at h; omega
        · rw [if_neg hst] at h; simp at h; omega
      · rw [if_neg hg] at h; simp at h; omega

/-- If pages before j all continue under the size bound and page j fails, the
loop returns the accumulation of the first j pages after j+1 requests. -/
theorem places_loop_fail (provider : Nat → PageOutcome) (max_results : Nat) :
    ∀ fuel k j, 3 ≤ fuel + k → k ≤ j → j < 3 →
      (∀ i, k ≤ i → i < j → page_continues (provider i)) →
      (∀ i, k ≤ i → i ≤ j → (acc_join provider i).length < max_results) →
      page_fails (provider j) →
      places_loop provider max_results fuel k (acc_join provider k) =
        (acc_join provider j, j + 1) := by
  intro fuel
  induction fuel with
  | zero => intro k j h3 hkj hj _ _ _; omega
  | succ fuel ih =>
    intro k j h3 hkj hj hgood hlen hfail
    have hg : k < 3 ∧ (acc_join provider k).length < max_results :=
      ⟨by omega, hlen k le_rfl hkj⟩
    rcases Nat.eq_or_lt_of_le hkj with rfl | hlt
    · rcases hp : provider k with _ | ⟨s, r, t⟩
      · simp only [places_loop, hp, if_pos hg]
      · rw [hp] at hfail
        simp only [page_fails] at hfail
        simp only [places_loop, hp, if_pos hg, if_neg hfail]
    · obtain ⟨s, r, t, hp, hst, htok⟩ := hgood k le_rfl hlt
      have hacc : acc_join provider k ++ r = acc_join provider (k + 1) := by
        rw [acc_join_succ, hp]
        rfl
      have hcont : token_truthy t = true ∧
          (acc_join provider k ++ r).length < max_results := by
        rw [hacc]
        exact ⟨htok, hlen (k + 1) (by omega) (by omega)⟩
      simp only [places_loop, hp, if_pos hg, if_pos hst, if_pos hcont]
      rw [hacc]
      exact ih (k + 1) j (by omega) (by omega) hj
        (fun i h1 h2 => hgood i (by omega) h2)
        (fun i h1 h2 => hlen i (by omega) h2) hfail

/-- Claim C4: for every provider behaviour and every max_results, the
aggregation issues at most 3 provider requests, the returned list has length
at most max_results, and every request beyond the first was issued only
because the previous page had a truthy continuation cursor with OK-ish status
and the accumulated count was still below max_results (equivalently, the
loop stops as soon as the cursor is absent or the count reaches
max_results). -/
theorem C4_bounded_aggregation (provider : Nat → PageOutcome)
    (max_results : Nat) :
    (get_all_places provider max_results).snd ≤ 3 ∧
    (get_all_places provider max_results).fst.length ≤ max_results ∧
    ∀ j, j + 1 < (get_all_places provider max_results).snd →
      page_continues (provider j) ∧
        (acc_join provider (j + 1)).length < max_results := by
  refine ⟨?_, ?_, ?_⟩
  · have h := places_loop_count_le provider max_results 3 0 [] (by omega)
    simpa [get_all_places] using h
  · simp only [get_all_places, List.length_take]
    omega
  · intro j h
    have hj : j + 1 <
        (places_loop provider max_results 3 0 (acc_join provider 0)).snd := by
      simpa [get_all_places, acc_join] using h
    exact places_loop_justified provider max_results 3 0 j (Nat.zero_le j) hj

/-- A concrete provider whose first page succeeds with one record and a
truthy token and whose second request raises. -/
def demo_provider : Nat → PageOutcome
  | 0 => .success "OK" [demo_place] (some "tok")
  | _ => .exn

/-- Witness for C4 at a concrete provider: two requests are issued, and the
first continuation was justified by the first page. -/
theorem C4_bounded_aggregation_witness :
    (get_all_places demo_provider 60).snd ≤ 3 ∧
    (get_all_places demo_provider 60).fst.length ≤ 60 ∧
    (page_continues (demo_provider 0) ∧
      (acc_join demo_provider 1).length < 60) := by
  have h := C4_bounded_aggregation demo_provider 60
  exact ⟨h.1, h.2.1, h.2.2 0 (by decide)⟩

/-- Claim C8: if the pages before j all continue under the size bound and the
j-th provider request fails (raises, or returns a status other than OK and
ZERO_RESULTS), the aggregation stops issuing requests (j+1 issued in total)
and returns exactly the records accumulated from the earlier pages, neither
discarding them nor raising. -/
theorem C8_provider_error_keeps_partial_results
    (provider : Nat → PageOutcome) (max_results j : Nat) (hj : j < 3)
    (hgood : ∀ i, i < j → page_continues (provider i))
    (hlen : ∀ i, i ≤ j → (acc_join provider i).length < max_results)
    (hfail : page_fails (provider j)) :
    get_all_places provider max_results = (acc_join provider j, j + 1) := by
  have hloop : places_loop provider max_results 3 0 (acc_join provider 0) =
      (acc_join provider j, j + 1) :=
    places_loop_fail provider max_results 3 0 j (by omega) (Nat.zero_le j) hj
      (fun i _ h2 => hgood i h2) (fun i _ h2 => hlen i h2) hfail
  have h0 : acc_join provider 0 = ([] : List RawPlace) := rfl
  rw [h0] at hloop
  simp only [get_all_places, hloop]
  rw [List.take_of_length_le (Nat.le_of_lt (hlen j le_rfl))]

/-- Witness for C8 at a concrete provider: the second request raises and the
single record of the first page is kept. -/
theorem C8_provider_error_keeps_partial_results_witness :
    get_all_places demo_provider 60 = ([demo_place], 2) := by
  have h := C8_provider_error_keeps_partial_results demo_provider 60 1
    (by decide)
    (by
      intro i hi
      have hi0 : i = 0 := by omega
      subst hi0
      exact ⟨"OK", [demo_place], some "tok", rfl, Or.inl rfl, rfl⟩)
    (by
      intro i hi
      interval_cases i <;> decide)
    trivial
  simpa [acc_join, demo_provider, page_results] using h

/-- Function part of a tool call emitted by the LLM (name and the raw JSON
arguments string). -/
structure ToolCallFunction where
  name : String
  arguments : String
deriving DecidableEq, Repr

/-- A tool call request emitted by the LLM. -/
structure ToolCall where
  id : String
  function : ToolCallFunction
deriving DecidableEq, Repr

/-- The message object of an LLM response: the text content and the list of
tool calls (a None tool_calls attribute and an empty list are both falsy in
Python and are both modelled by the empty list). -/
structure LLMMessage where
  content : String
  tool_calls : List ToolCall
deriving DecidableEq, Repr

/-- Parsed JSON object of the tool-call arguments, exposing the optional
query field the code reads via function_args.get. -/
structure ArgsObj where
  query : Option String
deriving DecidableEq, Repr

/-- Content of the tool-result message: the serialized JSON of the backend
response, or the serialized synthetic error dict with status ERROR and empty
results built when the backend request raised. -/
inductive ToolContent where
  | api_data (data : String)
  | error_payload
deriving DecidableEq, Repr

/-- A message in the conversation history of cli_app.py: the initial user
prompt, the appended assistant reply object, or the appended tool-result
dict carrying tool_call_id, name and content. -/
inductive ChatMessage where
  | user (content : String)
  | assistant (message : LLMMessage)
  | tool (tool_call_id : String) (name : String) (content : ToolContent)
deriving DecidableEq, Repr

/-- Outcome of one call of the backend HTTP request of cli_app.py
(requests.post followed by raise_for_status and json()): the serialized
response body, or a raised RequestException. -/
inductive BackendResult where
  | ok (data : String)
  | errRequest (msg : String)
deriving DecidableEq, Repr

/-- Exceptions escaping run_conversation; json.loads on unparsable arguments
raises JSONDecodeError (cli_app.py line 76 sits outside every try block of
the function). -/
inductive CliExn where
  | jsonDecodeError
deriving DecidableEq, Repr

/-- Content stored in the tool-result message for a given backend outcome
(cli_app.py lines 80-87): the response JSON, or the synthetic error payload
when the request raised. -/
def tool_content : BackendResult → ToolContent
  | .ok data => .api_data data
  | .errRequest _ => .error_payload

/-- Observable outcome of one run_conversation call: the final answer
printed for the assistant (none when nothing is printed), the number of
outbound LLM calls issued, and the conversation history at the end.  The
LLM-call count and history are carried for specification purposes. -/
structure ConvOutcome where
  answer : Option String
  llm_calls : Nat
  messages : List ChatMessage
deriving DecidableEq, Repr

/-- run_conversation (cli_app.py lines 45-114).  The two LLM calls and the
backend call are oracles; parse_json models json.loads with none as a parse
failure (which raises out of the function).  When the first tool call does
not name find_places_on_map the function falls through: no backend call, no
history extension, no second LLM call and no printed answer. -/
def run_conversation (user_prompt : String)
    (llm1 : List ChatMessage → LLMMessage)
    (parse_json : String → Option ArgsObj)
    (backend : Option String → BackendResult)
    (llm2 : List ChatMessage → String) : Except CliExn ConvOutcome :=
  let messages : List ChatMessage := [.user user_prompt]
  let response_message := llm1 messages
  match response_message.tool_calls with
  | tool_call :: _ =>
    if tool_call.function.name = "find_places_on_map" then
      match parse_json tool_call.function.arguments with
      | none => .error .jsonDecodeError
      | some function_args =>
        let messages2 := messages ++
          [.assistant response_message,
            .tool tool_call.id tool_call.function.name
              (tool_content (backend function_args.query))]
        .ok { answer := some (llm2 messages2), llm_calls := 2,
              messages := messages2 }
    else
      .ok { answer := none, llm_calls := 1, messages := messages }
  | [] =>
    .ok { answer := some response_message.content, llm_calls := 1,
          messages := messages }

/-- One iteration of the top-level CLI loop (cli_app.py lines 120-127): the
except Exception arm catches every exception escaping run_conversation and
the loop continues, so the loop survives both outcomes. -/
def cli_loop_survives (r : Except CliExn ConvOutcome) : Bool :=
  match r with
  | .ok _ => true
  | .error _ => true

/-- Outcome of one backend call in frontend_app.py: the parsed JSON body, or
a raised RequestException. -/
inductive FrontendCallResult where
  | json_body (data : String)
  | request_error (msg : String)
deriving DecidableEq, Repr

/-- Value returned by get_llm_decision: a plain string (chat reply or error
text), the raw backend JSON dict, or the synthetic error dict with status
ERROR and a detail built on a backend request failure. -/
inductive DecisionResult where
  | text (s : String)
  | json_data (data : String)
  | error_dict (detail : String)
deriving DecidableEq, Repr

/-- Text of the outer except arm of get_llm_decision (frontend_app.py line
99); the str of the caught exception is abstracted as a function of the
unparsable arguments string. -/
def ai_model_error_text (args : String) : String :=
  "An error occurred with the AI model: JSONDecodeError: " ++ args

/-- get_llm_decision (frontend_app.py lines 61-99).  The first tool call is
used without checking its function name; a json.loads failure on its
arguments is caught by the outer except Exception arm and surfaced as an
error string; a backend RequestException produces the status ERROR dict. -/
def get_llm_decision (messages : List ChatMessage)
    (llm1 : List ChatMessage → LLMMessage)
    (parse_json : String → Option ArgsObj)
    (backend : Option String → FrontendCallResult) : DecisionResult :=
  let response_message := llm1 messages
  match response_message.tool_calls with
  | tool_call :: _ =>
    match parse_json tool_call.function.arguments with
    | none => .text (ai_model_error_text tool_call.function.arguments)
    | some function_args =>
      match backend function_args.query with
      | .json_body data => .json_data data
      | .request_error msg =>
        .error_dict ("Could not connect to the mapping service: " ++ msg)
  | [] => .text response_message.content

/-- preprocess_query_with_llm (main_tool.py lines 86-104): the fallible LLM
pipeline (request, choices[0], message.content) is the oracle llm, with none
standing for any raised failure, handled by the except arm that falls back
to the raw query; on success the content is stripped of surrounding
whitespace. -/
def preprocess_query_with_llm (llm : String → Option String)
    (user_query : String) : String :=
  match llm user_query with
  | some content => content.trim
  | none => user_query

/-- A concrete tool call naming a function other than find_places_on_map. -/
def other_tool_call : ToolCall :=
  { id := "call_1", function := { name := "other_tool", arguments := "" } }

/-- A concrete LLM response carrying the non-matching tool call. -/
def resp_other : LLMMessage :=
  { content := "hi there", tool_calls := [other_tool_call] }

/-- Claim C1 counterexample: a first response that carries a tool-call
request whose function name is not find_places_on_map makes the orchestrator
fall through: only one outbound LLM call is made, the history is not
extended and no final answer is produced, contradicting the claimed two LLM
calls for every tool-call response. -/
theorem C1_counterexample :
    resp_other.tool_calls ≠ [] ∧
    run_conversation "hi" (fun _ => resp_other)
        (fun _ => some { query := none }) (fun _ => .ok "data")
        (fun _ => "final") =
      .ok { answer := none, llm_calls := 1,
            messages := [.user "hi"] } := by
  exact ⟨by decide, rfl⟩

/-- Claim C1 as amended: with no tool call the orchestrator answers the
LLM's text verbatim after exactly one LLM call and an unchanged history;
with a first tool call that names find_places_on_map and has parseable
arguments, exactly two LLM calls occur and between them the history is
extended by exactly one assistant tool-call message and one tool-result
message tagged with the first call's id and function name (later tool calls
are ignored); with a first tool call naming any other function, only one LLM
call occurs, the history is unchanged and no answer is produced. -/
theorem C1_orchestrator_rounds (user_prompt : String)
    (llm1 : List ChatMessage → LLMMessage)
    (parse_json : String → Option ArgsObj)
    (backend : Option String → BackendResult)
    (llm2 : List ChatMessage → String) (resp : LLMMessage)
    (hresp : llm1 [.user user_prompt] = resp) :
    (resp.tool_calls = [] →
      run_conversation user_prompt llm1 parse_json backend llm2 =
        .ok { answer := some resp.content, llm_calls := 1,
              messages := [.user user_prompt] }) ∧
    (∀ tc rest args, resp.tool_calls = tc :: rest →
      tc.function.name = "find_places_on_map" →
      parse_json tc.function.arguments = some args →
      run_conversation user_prompt llm1 parse_json backend llm2 =
        .ok { answer := some (llm2 ([.user user_prompt] ++
                [.assistant resp,
                  .tool tc.id tc.function.name
                    (tool_content (backend args.query))])),
              llm_calls := 2,
              messages := [.user user_prompt] ++
                [.assistant resp,
                  .tool tc.id tc.function.name
                    (tool_content (backend args.query))] }) ∧
    (∀ tc rest, resp.tool_calls = tc :: rest →
      tc.function.name ≠ "find_places_on_map" →
      run_conversation user_prompt llm1 parse_json backend llm2 =
        .ok { answer := none, llm_calls := 1,
              messages := [.user user_prompt] }) := by
  refine ⟨?_, ?_, ?_⟩
  · intro h0
    simp only [run_conversation, hresp, h0]
  · intro tc rest args hcalls hname hargs
    simp only [run_conversation, hresp, hcalls, if_pos hname, hargs]
  · intro tc rest hcalls hname
    simp only [run_conversation, hresp, hcalls, if_neg hname]

/-- A concrete tool call naming find_places_on_map. -/
def demo_tool_call : ToolCall :=
  { id := "call_1",
    function := { name := "find_places_on_map", arguments := "argjson" } }

/-- A concrete LLM response carrying the matching tool call. -/
def resp_tool : LLMMessage :=
  { content := "", tool_calls := [demo_tool_call] }

/-- Witness for the amended C1 at a concrete input exercising the tool-call
branch: two LLM calls and the two appended messages. -/
theorem C1_orchestrator_rounds_witness :
    run_conversation "find sushi" (fun _ => resp_tool)
        (fun _ => some { query := some "sushi NYC" }) (fun _ => .ok "body")
        (fun _ => "Here are some places") =
      .ok { answer := some "Here are some places", llm_calls := 2,
            messages := [.user "find sushi", .assistant resp_tool,
              .tool "call_1" "find_places_on_map" (.api_data "body")] } := by
  have h := C1_orchestrator_rounds "find sushi" (fun _ => resp_tool)
    (fun _ => some { query := some "sushi NYC" }) (fun _ => .ok "body")
    (fun _ => "Here are some places") resp_tool rfl
  exact h.2.1 demo_tool_call [] { query := some "sushi NYC" } rfl rfl rfl

/-- A concrete tool call naming find_places_on_map whose arguments are not
valid JSON (every parse oracle evaluated on them in the theorems below
returns none). -/
def bad_args_call : ToolCall :=
  { id := "call_2",
    function := { name := "find_places_on_map", arguments := "not json" } }

/-- A concrete LLM response carrying the unparsable tool call. -/
def resp_bad_args : LLMMessage :=
  { content := "", tool_calls := [bad_args_call] }

/-- Claim C5 counterexample: on a first tool call with unparsable arguments
the CLI orchestrator run_conversation propagates the JSONDecodeError to its
caller instead of producing a structured status ERROR payload. -/
theorem C5_counterexample :
    run_conversation "hi" (fun _ => resp_bad_args) (fun _ => none)
        (fun _ => .ok "body") (fun _ => "final") =
      .error .jsonDecodeError := rfl

/-- Claim C5 as amended: a JSON parse failure on the first tool call's
arguments does not yield a structured status ERROR payload: in the CLI
orchestrator the JSONDecodeError propagates out of run_conversation and is
only caught by the top-level loop's blanket except arm, which keeps the
conversation loop alive; in the frontend orchestrator the failure is caught
by the outer except arm and surfaced as an error string, not a dict. -/
theorem C5_malformed_arguments (user_prompt : String)
    (llm1 : List ChatMessage → LLMMessage)
    (parse_json : String → Option ArgsObj)
    (backend : Option String → BackendResult)
    (fbackend : Option String → FrontendCallResult)
    (llm2 : List ChatMessage → String) (messages : List ChatMessage)
    (tc : ToolCall) (rest : List ToolCall) (resp : LLMMessage)
    (hcli : llm1 [.user user_prompt] = resp)
    (hcalls : resp.tool_calls = tc :: rest)
    (hname : tc.function.name = "find_places_on_map")
    (hparse : parse_json tc.function.arguments = none) :
    run_conversation user_prompt llm1 parse_json backend llm2 =
      .error .jsonDecodeError ∧
    cli_loop_survives
      (run_conversation user_prompt llm1 parse_json backend llm2) = true ∧
    (llm1 messages = resp →
      get_llm_decision messages llm1 parse_json fbackend =
        .text (ai_model_error_text tc.function.arguments)) := by
  have hrun : run_conversation user_prompt llm1 parse_json backend llm2 =
      .error .jsonDecodeError := by
    simp only [run_conversation, hcli, hcalls, if_pos hname, hparse]
  refine ⟨hrun, by rw [hrun]; rfl, ?_⟩
  intro hfront
  simp only [get_llm_decision, hfront, hcalls, hparse]

/-- Witness for the amended C5 at a concrete input: the CLI orchestrator
returns the propagated exception and the frontend orchestrator returns the
error string. -/
theorem C5_malformed_arguments_witness :
    run_conversation "hi" (fun _ => resp_bad_args) (fun _ => none)
        (fun _ => .ok "body") (fun _ => "final") =
      .error .jsonDecodeError ∧
    get_llm_decision [] (fun _ => resp_bad_args) (fun _ => none)
        (fun _ => .json_body "x") =
      .text (ai_model_error_text "not json") := by
  have h := C5_malformed_arguments "hi" (fun _ => resp_bad_args)
    (fun _ => none) (fun _ => .ok "body") (fun _ => .json_body "x")
    (fun _ => "final") [] bad_args_call [] resp_bad_args rfl rfl rfl rfl
  exact ⟨h.1, h.2.2 rfl⟩

/-- Claim C9: whenever the preprocessing LLM pipeline fails the preprocessor
returns the raw query unchanged (so this path never fails the overall
search), and on success it returns the response content stripped of
surrounding whitespace. -/
theorem C9_preprocess_fallback (llm : String → Option String)
    (user_query : String) :
    (llm user_query = none →
      preprocess_query_with_llm llm user_query = user_query) ∧
    (∀ content, llm user_query = some content →
      preprocess_query_with_llm llm user_query = content.trim) := by
  constructor
  · intro h
    simp only [preprocess_query_with_llm, h]
  · intro content h
    simp only [preprocess_query_with_llm, h]

/-- Witness for C9 at concrete inputs: a failing pipeline returns the raw
query; a successful one returns the trimmed content. -/
theorem C9_preprocess_fallback_witness :
    preprocess_query_with_llm (fun _ => none) "best pizza" = "best pizza" ∧
    preprocess_query_with_llm (fun _ => some "  sushi NYC  ") "q" =
      "  sushi NYC  ".trim := by
  have h1 := (C9_preprocess_fallback (fun _ => none) "best pizza").1 rfl
  have h2 := (C9_preprocess_fallback (fun _ => some "  sushi NYC  ") "q").2
    "  sushi NYC  " rfl
  exact ⟨h1, h2⟩

end GmapLLM
